import Mathlib

/-!
Shallow embedding of the swapchain lifecycle subsystem of the
Vulkan-Excercises repository (src/labutils/vulkan_window.cpp and the
frame loops of src/exercise3/main.cpp and src/exercise4/main.cpp),
together with theorems settling the specification claims about it.
-/

namespace VulkanExercises

/-- Result codes returned by the Vulkan calls, as distinguished by the
code under scrutiny: it only ever compares against `VK_SUCCESS`,
`VK_SUBOPTIMAL_KHR` and `VK_ERROR_OUT_OF_DATE_KHR`; every other code is
modelled by `otherError`. -/
inductive VkResult where
  | success
  | suboptimalKHR
  | errorOutOfDateKHR
  | otherError (code : Nat)
deriving DecidableEq, Repr

/-- A `VkExtent2D`: a pair of `uint32_t` width/height, modelled as `Nat`. -/
structure VkExtent2D where
  width : Nat
  height : Nat
deriving DecidableEq, Repr

/-- Pixel formats, as distinguished by `create_swapchain`
(vulkan_window.cpp:387-401): the two preferred SRGB formats, every other
format collapsed to `otherFormat`. -/
inductive VkFormat where
  | R8G8B8A8_SRGB
  | B8G8R8A8_SRGB
  | otherFormat (code : Nat)
deriving DecidableEq, Repr

/-- Colour spaces, as distinguished by `create_swapchain`. -/
inductive VkColorSpaceKHR where
  | SRGB_NONLINEAR_KHR
  | otherColorSpace (code : Nat)
deriving DecidableEq, Repr

/-- A `VkSurfaceFormatKHR` entry of the surface-format list. -/
structure VkSurfaceFormatKHR where
  format : VkFormat
  colorSpace : VkColorSpaceKHR
deriving DecidableEq, Repr

/-- The fields of `VkSurfaceCapabilitiesKHR` that `create_swapchain`
reads (vulkan_window.cpp:408-435).  All counts and extents are
`uint32_t` in the source, modelled as `Nat`. -/
structure VkSurfaceCapabilitiesKHR where
  minImageCount : Nat
  maxImageCount : Nat
  currentExtent : VkExtent2D
  minImageExtent : VkExtent2D
  maxImageExtent : VkExtent2D
deriving DecidableEq, Repr

/-- `std::numeric_limits<std::uint32_t>::max()`, the sentinel for an
undefined surface extent. -/
def UINT32_MAX : Nat := 4294967295

/-- `2^32`, the modulus of `uint32_t` arithmetic. -/
def U32_MOD : Nat := 4294967296

/-- The format-selection loop of `create_swapchain`
(vulkan_window.cpp:387-401): walk the list, `break`ing at the first
entry that is `R8G8B8A8_SRGB`+SRGB-nonlinear or
`B8G8R8A8_SRGB`+SRGB-nonlinear; `fmt` carries the initial
`formats[0]` that is kept when no entry matches. -/
def surface_format_search : List VkSurfaceFormatKHR → VkSurfaceFormatKHR → VkSurfaceFormatKHR
  | [], fmt => fmt
  | curFormat :: rest, fmt =>
    if curFormat.format = VkFormat.R8G8B8A8_SRGB ∧
        curFormat.colorSpace = VkColorSpaceKHR.SRGB_NONLINEAR_KHR then
      curFormat
    else if curFormat.format = VkFormat.B8G8R8A8_SRGB ∧
        curFormat.colorSpace = VkColorSpaceKHR.SRGB_NONLINEAR_KHR then
      curFormat
    else
      surface_format_search rest fmt

/-- Format selection of `create_swapchain` (vulkan_window.cpp:385-401):
`format = formats[0]` followed by the search loop.  The source asserts
the list is non-empty; the empty case yields `none`. -/
def choose_surface_format : List VkSurfaceFormatKHR → Option VkSurfaceFormatKHR
  | [] => none
  | f0 :: rest => some (surface_format_search (f0 :: rest) f0)

/-- Whether a surface format is one of the two preferred entries of the
format-selection loop: 8-bit SRGB 4-channel, RGBA or BGRA order, with
SRGB-nonlinear colour space. -/
def preferred_format (f : VkSurfaceFormatKHR) : Prop :=
  (f.format = VkFormat.R8G8B8A8_SRGB ∨ f.format = VkFormat.B8G8R8A8_SRGB) ∧
    f.colorSpace = VkColorSpaceKHR.SRGB_NONLINEAR_KHR

instance (f : VkSurfaceFormatKHR) : Decidable (preferred_format f) := by
  unfold preferred_format; infer_instance

/-- Image-count computation of `create_swapchain`
(vulkan_window.cpp:415-421):
`imageCount = 2`; raise to `minImageCount + 1` when below it (`uint32_t`
addition, hence the modulus); then cap at `maxImageCount` when that cap
is nonzero. -/
def swapchain_image_count (caps : VkSurfaceCapabilitiesKHR) : Nat :=
  let imageCount := 2
  let imageCount :=
    if imageCount < (caps.minImageCount + 1) % U32_MOD then
      (caps.minImageCount + 1) % U32_MOD
    else imageCount
  if caps.maxImageCount > 0 ∧ imageCount > caps.maxImageCount then
    caps.maxImageCount
  else imageCount

/-- `std::clamp(v, lo, hi)` on `uint32_t`. -/
def clampU32 (v lo hi : Nat) : Nat :=
  if v < lo then lo else if hi < v then hi else v

/-- Extent resolution of `create_swapchain` (vulkan_window.cpp:423-435):
start from `currentExtent`; when its *width* equals the `uint32_t`
sentinel, replace both components by the GLFW framebuffer size clamped
to `[minImageExtent, maxImageExtent]`.  `fbWidth`/`fbHeight` stand for
the `glfwGetFramebufferSize` result. -/
def swapchain_extent (caps : VkSurfaceCapabilitiesKHR) (fbWidth fbHeight : Nat) : VkExtent2D :=
  let extent := caps.currentExtent
  if extent.width = UINT32_MAX then
    { width := clampU32 fbWidth caps.minImageExtent.width caps.maxImageExtent.width
      height := clampU32 fbHeight caps.minImageExtent.height caps.maxImageExtent.height }
  else
    extent

/-- The `SwapChanges` struct returned by `recreate_swapchain`
(vulkan_window.hpp / vulkan_window.cpp:323-329). -/
structure SwapChanges where
  changedSize : Bool := false
  changedFormat : Bool := false
deriving DecidableEq, Repr

/-- The swapchain-related fields of `labutils::VulkanWindow` that
`recreate_swapchain` mutates.  Handles (swapchain, images, views) are
modelled as abstract `Nat` identifiers. -/
structure SwapchainState where
  swapchain : Nat
  swapImages : List Nat
  swapViews : List Nat
  swapchainFormat : VkFormat
  swapchainExtent : VkExtent2D
deriving DecidableEq, Repr

/-- What a successful `create_swapchain` call hands back together with
the swapchain images the platform then exposes: the new chain handle,
the chosen format and extent, and the image handles that
`get_swapchain_images` retrieves for the new chain
(vulkan_window.cpp:469-476, 479-500). -/
structure CreateResult where
  handle : Nat
  format : VkFormat
  extent : VkExtent2D
  images : List Nat
deriving DecidableEq, Repr

/-- `create_swapchain_image_views` (vulkan_window.cpp:501-538): one view
appended per image, so the views list mirrors the images list.  View
handles are abstract; we tag each with its image handle. -/
def create_swapchain_image_views (images : List Nat) : List Nat :=
  images.map (fun img => img + 1)

/-- `recreate_swapchain` (vulkan_window.cpp:281-331).  `env = some r`
models a `create_swapchain` call that succeeds with `r`; `env = none`
models a `create_swapchain` that throws.  The result pairs the state of
the `VulkanWindow` visible after the call with `some changes` on
success and `none` when the exception propagates.  On the exception
path the `catch` block restores the old chain handle before
rethrowing; the views were already destroyed and both lists cleared
before the `try`. -/
def recreate_swapchain (aWindow : SwapchainState) (env : Option CreateResult) :
    SwapchainState × Option SwapChanges :=
  let oldFormat := aWindow.swapchainFormat
  let oldExtent := aWindow.swapchainExtent
  let oldSwapchain := aWindow.swapchain
  -- destroy each view, then clear both lists
  let aWindow := { aWindow with swapViews := [], swapImages := [] }
  match env with
  | none =>
    -- create_swapchain threw: restore the handle, rethrow
    ({ aWindow with swapchain := oldSwapchain }, none)
  | some r =>
    let aWindow :=
      { aWindow with
          swapchain := r.handle
          swapchainFormat := r.format
          swapchainExtent := r.extent }
    -- vkDestroySwapchainKHR(oldSwapchain); then re-derive images & views
    let aWindow :=
      { aWindow with
          swapImages := r.images
          swapViews := create_swapchain_image_views r.images }
    let ret : SwapChanges := {}
    let ret :=
      if oldExtent.width ≠ aWindow.swapchainExtent.width ∨
          oldExtent.height ≠ aWindow.swapchainExtent.height then
        { ret with changedSize := true }
      else ret
    let ret :=
      if oldFormat ≠ aWindow.swapchainFormat then
        { ret with changedFormat := true }
      else ret
    (aWindow, some ret)

/-- Observable actions of one iteration of the exercise3/exercise4 main
loop, in program order. -/
inductive Action where
  | deviceWaitIdle
  | recreateSwapchainCall
  | rebuildRenderPass
  | rebuildFramebuffers
  | rebuildPipeline
  | rebuildAlphaPipeline
  | rebuildDepthBuffer
  | acquireImage
  | waitFence (i : Nat)
  | resetFence (i : Nat)
  | recordCommands (i : Nat)
  | submitCommands (i : Nat)
  | presentImage (i : Nat)
deriving DecidableEq, Repr

/-- Environment for one iteration of the exercise3 main loop: the
results the platform hands back to each Vulkan call of that iteration.
`recreateResult` is consulted only on the recreation path; the
spelling `aquireRes` follows the source (exercise3/main.cpp:135). -/
structure IterEnv where
  recreateResult : Option CreateResult
  aquireRes : VkResult
  aquireIndex : Nat
  waitRes : VkResult
  resetRes : VkResult
  submitRes : VkResult
  presentRes : VkResult
deriving Repr

/-- The mutable state of exercise3's `main` that the loop body touches
(exercise3/main.cpp:81-100): the window's swapchain state, the
framebuffers (one per swap view), the command-buffer and fence pools
(`cbuffers`, `cbfences`), and the `recreateSwapchain` flag. -/
structure Ex3State where
  window : SwapchainState
  framebuffers : List Nat
  cbuffers : List Nat
  cbfences : List Nat
  recreateSwapchain : Bool
deriving DecidableEq, Repr

/-- `create_swapchain_framebuffers` (exercise3/main.cpp:419-454): one
framebuffer per swapchain image view. -/
def create_swapchain_framebuffers (window : SwapchainState) : List Nat :=
  window.swapViews.map (fun v => v + 1)

/-- The startup sequence of exercise3's `main` relevant to the loop
(exercise3/main.cpp:70-100): framebuffers built from the initial
swapchain, then one command buffer and one (pre-signaled) fence per
framebuffer, and the recreation flag cleared. -/
def ex3_main_init (window0 : SwapchainState) : Ex3State :=
  let framebuffers := create_swapchain_framebuffers window0
  { window := window0
    framebuffers := framebuffers
    cbuffers := framebuffers.map (fun f => f + 1)
    cbfences := framebuffers.map (fun f => f + 2)
    recreateSwapchain := false }

/-- One iteration of exercise3's main loop (exercise3/main.cpp:102-210),
as the new state, the list of performed actions, and a flag that is
`true` when the iteration ended by throwing (the exception reaches the
top-level handler and terminates the loop fatally). -/
def ex3_loop_iteration (s : Ex3State) (env : IterEnv) :
    Ex3State × List Action × Bool :=
  if s.recreateSwapchain then
    -- vkDeviceWaitIdle; recreate; selective rebuilds; clear flag; continue
    match env.recreateResult with
    | none =>
      -- lut::recreate_swapchain threw: exception propagates out of main
      let w := (recreate_swapchain s.window none).1
      ({ s with window := w },
        [Action.deviceWaitIdle, Action.recreateSwapchainCall], true)
    | some r =>
      let res := recreate_swapchain s.window (some r)
      let w := res.1
      let changes := res.2.getD {}
      let acts :=
          [Action.deviceWaitIdle, Action.recreateSwapchainCall] ++
          (if changes.changedFormat then [Action.rebuildRenderPass] else []) ++
          [Action.rebuildFramebuffers] ++
          (if changes.changedSize then [Action.rebuildPipeline] else [])
      ({ s with
          window := w
          framebuffers := create_swapchain_framebuffers w
          recreateSwapchain := false },
        acts, false)
  else
    match env.aquireRes with
    | VkResult.suboptimalKHR =>
      ({ s with recreateSwapchain := true }, [Action.acquireImage], false)
    | VkResult.errorOutOfDateKHR =>
      ({ s with recreateSwapchain := true }, [Action.acquireImage], false)
    | VkResult.otherError _ =>
      (s, [Action.acquireImage], true)
    | VkResult.success =>
      let imageIndex := env.aquireIndex
      if env.waitRes ≠ VkResult.success then
        (s, [Action.acquireImage, Action.waitFence imageIndex], true)
      else if env.resetRes ≠ VkResult.success then
        (s, [Action.acquireImage, Action.waitFence imageIndex,
             Action.resetFence imageIndex], true)
      else
        let acts :=
          [Action.acquireImage, Action.waitFence imageIndex,
           Action.resetFence imageIndex, Action.recordCommands imageIndex,
           Action.submitCommands imageIndex]
        if env.submitRes ≠ VkResult.success then
          (s, acts, true)
        else
          let acts := acts ++ [Action.presentImage imageIndex]
          match env.presentRes with
          | VkResult.suboptimalKHR =>
            ({ s with recreateSwapchain := true }, acts, false)
          | VkResult.errorOutOfDateKHR =>
            ({ s with recreateSwapchain := true }, acts, false)
          | VkResult.otherError _ => (s, acts, true)
          | VkResult.success => (s, acts, false)

/-- The actions of exercise4's recreation branch
(exercise4/main.cpp:359-382): device idle wait, recreate, render pass
rebuilt when the format changed, pipelines and the depth buffer rebuilt
when the size changed, framebuffers rebuilt unconditionally. -/
def ex4_recreation_actions (changes : SwapChanges) : List Action :=
  [Action.deviceWaitIdle, Action.recreateSwapchainCall] ++
    (if changes.changedFormat then [Action.rebuildRenderPass] else []) ++
    (if changes.changedSize then
      [Action.rebuildPipeline, Action.rebuildAlphaPipeline,
       Action.rebuildDepthBuffer]
     else []) ++
    [Action.rebuildFramebuffers]

/-- Per-frame-slot synchronization state: the slot's completion fence
(`cbfences[i]`) and the number of submissions using the slot that the
GPU has not yet completed. -/
structure SlotState where
  fenceSignaled : Bool
  inFlight : Nat
deriving DecidableEq, Repr

/-- Where the host thread of the exercise3 main loop stands between its
blocking points: top of the loop, blocked on `vkWaitForFences` for slot
`i`, past `vkQueueSubmit` for slot `i` and about to present, or dead
after a fatal error. -/
inductive HostPhase where
  | ready
  | waitingFence (i : Nat)
  | submitted (i : Nat)
  | dead
deriving DecidableEq, Repr

/-- Combined host/GPU state of the frame loop's synchronization
protocol. -/
structure SysState where
  host : HostPhase
  recreatePending : Bool
  slots : Nat → SlotState

/-- Point update of the slot map. -/
def updateSlot (slots : Nat → SlotState) (i : Nat) (v : SlotState) :
    Nat → SlotState :=
  fun j => if j = i then v else slots j

/-- Interleaved small-step semantics of the exercise3 frame loop
(exercise3/main.cpp:102-210) and the asynchronous GPU.  Host steps
follow the code: the recreation branch runs behind `vkDeviceWaitIdle`
(enabled only with no work in flight); acquire yields success, a stale
status (flag set), or a fatal status; the fence wait for the acquired
slot returns only once that fence is signaled, after which the code
resets the fence, re-records the slot's command buffer and submits it
with the fence; present yields success, stale or fatal.  The GPU may at
any time complete an in-flight submission, signaling its fence. -/
inductive FrameStep : SysState → SysState → Prop where
  | recreate (s : SysState) :
      s.host = HostPhase.ready → s.recreatePending = true →
      (∀ i, (s.slots i).inFlight = 0) →
      FrameStep s { s with recreatePending := false }
  | acquireOk (s : SysState) (i : Nat) :
      s.host = HostPhase.ready → s.recreatePending = false →
      FrameStep s { s with host := HostPhase.waitingFence i }
  | acquireStale (s : SysState) :
      s.host = HostPhase.ready → s.recreatePending = false →
      FrameStep s { s with recreatePending := true }
  | acquireFatal (s : SysState) :
      s.host = HostPhase.ready → s.recreatePending = false →
      FrameStep s { s with host := HostPhase.dead }
  | recordSubmit (s : SysState) (i : Nat) :
      s.host = HostPhase.waitingFence i →
      (s.slots i).fenceSignaled = true →
      FrameStep s
        { s with
            host := HostPhase.submitted i
            slots := updateSlot s.slots i ⟨false, (s.slots i).inFlight + 1⟩ }
  | presentOk (s : SysState) (i : Nat) :
      s.host = HostPhase.submitted i →
      FrameStep s { s with host := HostPhase.ready }
  | presentStale (s : SysState) (i : Nat) :
      s.host = HostPhase.submitted i →
      FrameStep s { s with host := HostPhase.ready, recreatePending := true }
  | presentFatal (s : SysState) (i : Nat) :
      s.host = HostPhase.submitted i →
      FrameStep s { s with host := HostPhase.dead }
  | gpuComplete (s : SysState) (i : Nat) :
      (s.slots i).inFlight > 0 →
      FrameStep s
        { s with slots := updateSlot s.slots i ⟨true, (s.slots i).inFlight - 1⟩ }

/-- Initial state of the frame loop: host at the top of the loop, no
recreation pending, every fence created with
`VK_FENCE_CREATE_SIGNALED_BIT` (exercise3/main.cpp:93) and nothing in
flight. -/
def frame_init : SysState :=
  { host := HostPhase.ready
    recreatePending := false
    slots := fun _ => ⟨true, 0⟩ }

/-- States the frame loop can reach from startup. -/
inductive FrameReachable : SysState → Prop where
  | init : FrameReachable frame_init
  | step {s t : SysState} : FrameReachable s → FrameStep s t → FrameReachable t

/-- The fence-wait-then-reset-then-submit protocol invariant: each slot
has at most one submission in flight, and a signaled fence means the
slot's previous submission has fully completed. -/
theorem frame_slot_invariant {s : SysState} (h : FrameReachable s) :
    ∀ i, (s.slots i).inFlight ≤ 1 ∧
      ((s.slots i).fenceSignaled = true → (s.slots i).inFlight = 0) := by
  induction h with
  | init =>
    intro i
    simp [frame_init]
  | step hr hstep ih =>
    cases hstep with
    | recreate h1 h2 h3 =>
      intro i
      simpa using ih i
    | acquireOk i h1 h2 =>
      intro j
      simpa using ih j
    | acquireStale h1 h2 =>
      intro j
      simpa using ih j
    | acquireFatal h1 h2 =>
      intro j
      simpa using ih j
    | recordSubmit i h1 h2 =>
      intro j
      by_cases hj : j = i
      · subst hj
        have h0 := (ih j).2 h2
        simp [updateSlot, h0]
      · simpa [updateSlot, hj] using ih j
    | presentOk i h1 =>
      intro j
      simpa using ih j
    | presentStale i h1 =>
      intro j
      simpa using ih j
    | presentFatal i h1 =>
      intro j
      simpa using ih j
    | gpuComplete i h1 =>
      intro j
      by_cases hj : j = i
      · subst hj
        have hle := (ih j).1
        simp [updateSlot]
        omega
      · simpa [updateSlot, hj] using ih j

/-- When no list entry is preferred, the format-selection loop falls
through and keeps its initial value. -/
theorem surface_format_search_of_none {l : List VkSurfaceFormatKHR}
    {d : VkSurfaceFormatKHR} (h : ∀ g ∈ l, ¬ preferred_format g) :
    surface_format_search l d = d := by
  induction l with
  | nil => rfl
  | cons f rest ih =>
    have hf : ¬ preferred_format f := h f (by simp)
    unfold surface_format_search
    rw [if_neg, if_neg]
    · exact ih (fun g hg => h g (by simp [hg]))
    · intro hc
      exact hf ⟨Or.inr hc.1, hc.2⟩
    · intro hc
      exact hf ⟨Or.inl hc.1, hc.2⟩

/-- When some list entry is preferred, the format-selection loop stops
at a preferred entry of the list. -/
theorem surface_format_search_of_some {l : List VkSurfaceFormatKHR}
    {d : VkSurfaceFormatKHR} (h : ∃ g ∈ l, preferred_format g) :
    preferred_format (surface_format_search l d) ∧
      surface_format_search l d ∈ l := by
  induction l with
  | nil => simp at h
  | cons f rest ih =>
    unfold surface_format_search
    by_cases h1 : f.format = VkFormat.R8G8B8A8_SRGB ∧
        f.colorSpace = VkColorSpaceKHR.SRGB_NONLINEAR_KHR
    · rw [if_pos h1]
      exact ⟨⟨Or.inl h1.1, h1.2⟩, by simp⟩
    · rw [if_neg h1]
      by_cases h2 : f.format = VkFormat.B8G8R8A8_SRGB ∧
          f.colorSpace = VkColorSpaceKHR.SRGB_NONLINEAR_KHR
      · rw [if_pos h2]
        exact ⟨⟨Or.inr h2.1, h2.2⟩, by simp⟩
      · rw [if_neg h2]
        have hrest : ∃ g ∈ rest, preferred_format g := by
          rcases h with ⟨g, hg, hp⟩
          rcases List.mem_cons.1 hg with rfl | hgr
          · exfalso
            rcases hp with ⟨hor, hcs⟩
            rcases hor with hfmt | hfmt
            · exact h1 ⟨hfmt, hcs⟩
            · exact h2 ⟨hfmt, hcs⟩
          · exact ⟨g, hgr, hp⟩
        obtain ⟨hp, hm⟩ := ih hrest
        exact ⟨hp, by simp [hm]⟩

/-- Claim C9: for every non-empty surface-format list, `create_swapchain`
selects an 8-bit SRGB 4-channel RGBA/BGRA format with SRGB-nonlinear
colour space when one is present in the list, and otherwise returns the
first format of the list. -/
theorem C9_format_selection (f0 : VkSurfaceFormatKHR)
    (rest : List VkSurfaceFormatKHR) :
    ((∃ g ∈ f0 :: rest, preferred_format g) →
      choose_surface_format (f0 :: rest) =
          some (surface_format_search (f0 :: rest) f0) ∧
        preferred_format (surface_format_search (f0 :: rest) f0) ∧
        surface_format_search (f0 :: rest) f0 ∈ f0 :: rest) ∧
    ((∀ g ∈ f0 :: rest, ¬ preferred_format g) →
      choose_surface_format (f0 :: rest) = some f0) := by
  constructor
  · intro h
    obtain ⟨hp, hm⟩ := surface_format_search_of_some (d := f0) h
    exact ⟨rfl, hp, hm⟩
  · intro h
    show some (surface_format_search (f0 :: rest) f0) = some f0
    rw [surface_format_search_of_none h]

/-- Witness for C9: with a non-preferred head and a preferred BGRA
entry, selection returns the BGRA entry. -/
theorem C9_format_selection_witness :
    choose_surface_format
        [⟨VkFormat.otherFormat 5, VkColorSpaceKHR.SRGB_NONLINEAR_KHR⟩,
         ⟨VkFormat.B8G8R8A8_SRGB, VkColorSpaceKHR.SRGB_NONLINEAR_KHR⟩] =
      some ⟨VkFormat.B8G8R8A8_SRGB, VkColorSpaceKHR.SRGB_NONLINEAR_KHR⟩ ∧
    preferred_format
      ⟨VkFormat.B8G8R8A8_SRGB, VkColorSpaceKHR.SRGB_NONLINEAR_KHR⟩ := by
  have h :=
    (C9_format_selection
        ⟨VkFormat.otherFormat 5, VkColorSpaceKHR.SRGB_NONLINEAR_KHR⟩
        [⟨VkFormat.B8G8R8A8_SRGB, VkColorSpaceKHR.SRGB_NONLINEAR_KHR⟩]).1
      (by decide)
  refine ⟨?_, by decide⟩
  rw [h.1]
  decide

/-- Claim C3: for surface capability reports whose current extent is
well-formed (the width is the undefined sentinel exactly when the
height is, as Vulkan guarantees), `create_swapchain` resolves the
extent to the framebuffer size clamped component-wise to
`[minImageExtent, maxImageExtent]` when the current extent is the
sentinel, and to the reported current extent verbatim otherwise. -/
theorem C3_extent_resolution (caps : VkSurfaceCapabilitiesKHR)
    (fbWidth fbHeight : Nat)
    (hwf : caps.currentExtent.width = UINT32_MAX ↔
      caps.currentExtent.height = UINT32_MAX) :
    (caps.currentExtent = ⟨UINT32_MAX, UINT32_MAX⟩ →
      swapchain_extent caps fbWidth fbHeight =
        ⟨clampU32 fbWidth caps.minImageExtent.width caps.maxImageExtent.width,
          clampU32 fbHeight caps.minImageExtent.height
            caps.maxImageExtent.height⟩) ∧
    (caps.currentExtent ≠ ⟨UINT32_MAX, UINT32_MAX⟩ →
      swapchain_extent caps fbWidth fbHeight = caps.currentExtent) := by
  constructor
  · intro h
    simp [swapchain_extent, h]
  · intro h
    have hw : caps.currentExtent.width ≠ UINT32_MAX := by
      intro hww
      apply h
      have heta : caps.currentExtent =
          ⟨caps.currentExtent.width, caps.currentExtent.height⟩ := rfl
      rw [heta, hww, hwf.1 hww]
    simp [swapchain_extent, hw]

/-- Witness for C3, scenario A of the spec: sentinel current extent,
drawable size 800 by 600, extent range 1..4096 in both dimensions,
resolved extent 800 by 600. -/
theorem C3_extent_resolution_witness :
    swapchain_extent ⟨2, 0, ⟨UINT32_MAX, UINT32_MAX⟩, ⟨1, 1⟩, ⟨4096, 4096⟩⟩
        800 600 = ⟨800, 600⟩ := by
  have h :=
    (C3_extent_resolution
        ⟨2, 0, ⟨UINT32_MAX, UINT32_MAX⟩, ⟨1, 1⟩, ⟨4096, 4096⟩⟩ 800 600
        (by decide)).1 rfl
  rw [h]
  decide

/-- Claim C10: the undefined-extent test of `create_swapchain` examines
only the width of `currentExtent`: whenever the width differs from the
sentinel the reported extent is used verbatim, without clamping, even
when the height equals the sentinel. -/
theorem C10_width_only_sentinel_test (caps : VkSurfaceCapabilitiesKHR)
    (fbWidth fbHeight : Nat)
    (h : caps.currentExtent.width ≠ UINT32_MAX) :
    swapchain_extent caps fbWidth fbHeight = caps.currentExtent := by
  simp [swapchain_extent, h]

/-- Witness for C10: width 800 (not the sentinel) with sentinel height;
the reported extent is returned verbatim although the height lies far
outside the clamp range 1..600. -/
theorem C10_width_only_sentinel_test_witness :
    swapchain_extent ⟨2, 0, ⟨800, UINT32_MAX⟩, ⟨1, 1⟩, ⟨600, 600⟩⟩ 500 500 =
      ⟨800, UINT32_MAX⟩ := by
  have h :=
    C10_width_only_sentinel_test
      ⟨2, 0, ⟨800, UINT32_MAX⟩, ⟨1, 1⟩, ⟨600, 600⟩⟩ 500 500 (by decide)
  simpa using h

/-- Counterexample to C8 as stated: with `minImageCount = 3` and
`maxImageCount = 3`, the surface requires more than two images
(`minImageCount + 1 > 2`), yet the requested count 3 is below
`minImageCount + 1`, because the cap is applied after the lower
bounds. -/
theorem C8_counterexample :
    2 < (⟨3, 3, ⟨0, 0⟩, ⟨0, 0⟩, ⟨0, 0⟩⟩ :
        VkSurfaceCapabilitiesKHR).minImageCount + 1 ∧
    swapchain_image_count ⟨3, 3, ⟨0, 0⟩, ⟨0, 0⟩, ⟨0, 0⟩⟩ <
      (⟨3, 3, ⟨0, 0⟩, ⟨0, 0⟩, ⟨0, 0⟩⟩ :
        VkSurfaceCapabilitiesKHR).minImageCount + 1 := by
  decide

/-- Claim C8 as amended: for every capability report whose
`minImageCount + 1` does not overflow `uint32_t`, the requested image
count is at most `maxImageCount` whenever that cap is nonzero; it is at
least 2 and at least `minImageCount + 1` whenever the cap does not
force it lower (the cap is zero, or at least both 2 and
`minImageCount + 1`); and for well-formed reports (cap zero or at least
`minImageCount`) it lies within `[minImageCount, maxImageCount or
unbounded]`. -/
theorem C8_amended_image_count_bounds (caps : VkSurfaceCapabilitiesKHR)
    (hof : caps.minImageCount + 1 < U32_MOD) :
    (caps.maxImageCount > 0 →
      swapchain_image_count caps ≤ caps.maxImageCount) ∧
    ((caps.maxImageCount = 0 ∨
        (2 ≤ caps.maxImageCount ∧
          caps.minImageCount + 1 ≤ caps.maxImageCount)) →
      2 ≤ swapchain_image_count caps ∧
        caps.minImageCount + 1 ≤ swapchain_image_count caps) ∧
    ((caps.maxImageCount = 0 ∨ caps.minImageCount ≤ caps.maxImageCount) →
      caps.minImageCount ≤ swapchain_image_count caps) := by
  have hmod : (caps.minImageCount + 1) % U32_MOD = caps.minImageCount + 1 :=
    Nat.mod_eq_of_lt hof
  simp only [swapchain_image_count, hmod]
  split_ifs <;> omega

/-- Witness for the amended C8: an uncapped report with
`minImageCount = 1` requests two images, within all the bounds. -/
theorem C8_amended_image_count_bounds_witness :
    2 ≤ swapchain_image_count ⟨1, 0, ⟨0, 0⟩, ⟨0, 0⟩, ⟨0, 0⟩⟩ ∧
    (⟨1, 0, ⟨0, 0⟩, ⟨0, 0⟩, ⟨0, 0⟩⟩ :
        VkSurfaceCapabilitiesKHR).minImageCount ≤
      swapchain_image_count ⟨1, 0, ⟨0, 0⟩, ⟨0, 0⟩, ⟨0, 0⟩⟩ := by
  have h := C8_amended_image_count_bounds ⟨1, 0, ⟨0, 0⟩, ⟨0, 0⟩, ⟨0, 0⟩⟩
    (by decide)
  exact ⟨(h.2.1 (Or.inl rfl)).1, h.2.2 (Or.inl rfl)⟩

/-- A sample startup swapchain with three images, as concrete input for
witnesses. -/
def sampleWindow3 : SwapchainState :=
  { swapchain := 100
    swapImages := [0, 1, 2]
    swapViews := [1, 2, 3]
    swapchainFormat := VkFormat.B8G8R8A8_SRGB
    swapchainExtent := ⟨800, 600⟩ }

/-- A sample successful `create_swapchain` outcome with four images and
a changed extent, as concrete input for witnesses. -/
def sampleCreate4 : CreateResult :=
  { handle := 101
    format := VkFormat.B8G8R8A8_SRGB
    extent := ⟨1024, 768⟩
    images := [10, 11, 12, 13] }

/-- An iteration environment in which every Vulkan call succeeds. -/
def all_ok_env (rc : Option CreateResult) : IterEnv :=
  { recreateResult := rc
    aquireRes := VkResult.success
    aquireIndex := 0
    waitRes := VkResult.success
    resetRes := VkResult.success
    submitRes := VkResult.success
    presentRes := VkResult.success }

/-- Claim C2: when `create_swapchain` throws inside
`recreate_swapchain`, the previously-valid chain handle is restored
before the failure propagates, the format and extent are untouched, and
a retry with a succeeding environment goes through. -/
theorem C2_recreate_failure_restores_handle (w : SwapchainState)
    (r : CreateResult) :
    (recreate_swapchain w none).1.swapchain = w.swapchain ∧
    (recreate_swapchain w none).1.swapchainFormat = w.swapchainFormat ∧
    (recreate_swapchain w none).1.swapchainExtent = w.swapchainExtent ∧
    (recreate_swapchain w none).2 = none ∧
    (recreate_swapchain (recreate_swapchain w none).1 (some r)).2 ≠ none := by
  refine ⟨rfl, rfl, rfl, rfl, ?_⟩
  simp [recreate_swapchain]

/-- Claim C1, evaluated at the failing input: after a pending
recreation succeeds and grows the image count from three to four, the
swapchain invariant `views.size() == images.size()` still holds, but
exercise3's frame resource pool (`cbuffers`, `cbfences`) keeps its
startup size of three slots instead of following the new image count of
four — so an acquire returning image index 3 trips the code's own
`assert(imageIndex < cbfences.size())`. -/
theorem C1_frame_pool_not_resized :
    (ex3_loop_iteration
        { ex3_main_init sampleWindow3 with recreateSwapchain := true }
        (all_ok_env (some sampleCreate4))).1.window.swapViews.length =
      (ex3_loop_iteration
        { ex3_main_init sampleWindow3 with recreateSwapchain := true }
        (all_ok_env (some sampleCreate4))).1.window.swapImages.length ∧
    (ex3_loop_iteration
        { ex3_main_init sampleWindow3 with recreateSwapchain := true }
        (all_ok_env (some sampleCreate4))).1.window.swapImages.length = 4 ∧
    (ex3_loop_iteration
        { ex3_main_init sampleWindow3 with recreateSwapchain := true }
        (all_ok_env (some sampleCreate4))).1.cbfences.length = 3 ∧
    (ex3_loop_iteration
        { ex3_main_init sampleWindow3 with recreateSwapchain := true }
        (all_ok_env (some sampleCreate4))).1.cbuffers.length = 3 := by
  decide

/-- Claim C4: a suboptimal or out-of-date acquire sets the
pending-recreation flag, performs no record, submit or present in that
iteration and is not fatal; the following iteration performs the
recreation call and attempts no acquire; any other non-success acquire
status is fatal. -/
theorem C4_acquire_stale_handling (s : Ex3State) (env : IterEnv)
    (hflag : s.recreateSwapchain = false) :
    ((env.aquireRes = VkResult.suboptimalKHR ∨
        env.aquireRes = VkResult.errorOutOfDateKHR) →
      (ex3_loop_iteration s env).1.recreateSwapchain = true ∧
      (ex3_loop_iteration s env).2.2 = false ∧
      (ex3_loop_iteration s env).2.1 = [Action.acquireImage] ∧
      (∀ env2 : IterEnv,
        Action.recreateSwapchainCall ∈
          (ex3_loop_iteration (ex3_loop_iteration s env).1 env2).2.1 ∧
        Action.acquireImage ∉
          (ex3_loop_iteration (ex3_loop_iteration s env).1 env2).2.1)) ∧
    (∀ c, env.aquireRes = VkResult.otherError c →
      (ex3_loop_iteration s env).2.2 = true) := by
  constructor
  · intro h
    have hnext : ∀ env2 : IterEnv,
        Action.recreateSwapchainCall ∈
          (ex3_loop_iteration { s with recreateSwapchain := true } env2).2.1 ∧
        Action.acquireImage ∉
          (ex3_loop_iteration { s with recreateSwapchain := true } env2).2.1 := by
      intro env2
      cases hrc : env2.recreateResult with
      | none => simp [ex3_loop_iteration, hrc]
      | some r =>
        simp only [ex3_loop_iteration, hrc]
        constructor
        · simp
        · split_ifs <;> simp
    rcases h with h | h
    · have hstate : (ex3_loop_iteration s env).1 =
          { s with recreateSwapchain := true } := by
        simp [ex3_loop_iteration, hflag, h]
      refine ⟨?_, ?_, ?_, ?_⟩
      · simp [ex3_loop_iteration, hflag, h]
      · simp [ex3_loop_iteration, hflag, h]
      · simp [ex3_loop_iteration, hflag, h]
      · rw [hstate]
        exact hnext
    · have hstate : (ex3_loop_iteration s env).1 =
          { s with recreateSwapchain := true } := by
        simp [ex3_loop_iteration, hflag, h]
      refine ⟨?_, ?_, ?_, ?_⟩
      · simp [ex3_loop_iteration, hflag, h]
      · simp [ex3_loop_iteration, hflag, h]
      · simp [ex3_loop_iteration, hflag, h]
      · rw [hstate]
        exact hnext
  · intro c hc
    simp [ex3_loop_iteration, hflag, hc]

/-- Witness for C4: out-of-date acquire on the sample state marks
recreation pending without a fatal exit. -/
theorem C4_acquire_stale_handling_witness :
    (ex3_loop_iteration (ex3_main_init sampleWindow3)
        { all_ok_env none with
            aquireRes := VkResult.errorOutOfDateKHR }).1.recreateSwapchain =
      true ∧
    (ex3_loop_iteration (ex3_main_init sampleWindow3)
        { all_ok_env none with
            aquireRes := VkResult.errorOutOfDateKHR }).2.2 = false := by
  have h :=
    (C4_acquire_stale_handling (ex3_main_init sampleWindow3)
        { all_ok_env none with aquireRes := VkResult.errorOutOfDateKHR }
        rfl).1 (Or.inr rfl)
  exact ⟨h.1, h.2.1⟩

/-- Claim C5: a suboptimal or out-of-date present after a successful
submit only marks recreation pending — the iteration is not fatal and
its trace records the full fence-wait, reset, record, submit for the
acquired slot before the present; any other non-success present status
is fatal; and the submitted work still completes: whenever a slot has a
submission in flight, the GPU completion step is available and
signals that slot's fence. -/
theorem C5_present_stale_handling (s : Ex3State) (env : IterEnv) (i : Nat)
    (hflag : s.recreateSwapchain = false)
    (hacq : env.aquireRes = VkResult.success)
    (hidx : env.aquireIndex = i)
    (hwait : env.waitRes = VkResult.success)
    (hreset : env.resetRes = VkResult.success)
    (hsubmit : env.submitRes = VkResult.success) :
    ((env.presentRes = VkResult.suboptimalKHR ∨
        env.presentRes = VkResult.errorOutOfDateKHR) →
      (ex3_loop_iteration s env).1.recreateSwapchain = true ∧
      (ex3_loop_iteration s env).2.2 = false ∧
      (ex3_loop_iteration s env).2.1 =
        [Action.acquireImage, Action.waitFence i, Action.resetFence i,
         Action.recordCommands i, Action.submitCommands i,
         Action.presentImage i]) ∧
    (∀ c, env.presentRes = VkResult.otherError c →
      (ex3_loop_iteration s env).2.2 = true) ∧
    (∀ sys : SysState, ∀ j : Nat, (sys.slots j).inFlight > 0 →
      ∃ sys2 : SysState, FrameStep sys sys2 ∧
        (sys2.slots j).fenceSignaled = true ∧
        (sys2.slots j).inFlight = (sys.slots j).inFlight - 1) := by
  subst hidx
  refine ⟨?_, ?_, ?_⟩
  · rintro (h | h) <;>
      simp [ex3_loop_iteration, hflag, hacq, hwait, hreset, hsubmit, h]
  · intro c hc
    simp [ex3_loop_iteration, hflag, hacq, hwait, hreset, hsubmit, hc]
  · intro sys j hj
    refine ⟨_, FrameStep.gpuComplete sys j hj, ?_, ?_⟩ <;>
      simp [updateSlot]

/-- Witness for C5: a suboptimal present on the sample state marks
recreation pending without a fatal exit. -/
theorem C5_present_stale_handling_witness :
    (ex3_loop_iteration (ex3_main_init sampleWindow3)
        { all_ok_env none with
            presentRes := VkResult.suboptimalKHR }).1.recreateSwapchain =
      true ∧
    (ex3_loop_iteration (ex3_main_init sampleWindow3)
        { all_ok_env none with
            presentRes := VkResult.suboptimalKHR }).2.2 = false := by
  have h :=
    (C5_present_stale_handling (ex3_main_init sampleWindow3)
        { all_ok_env none with presentRes := VkResult.suboptimalKHR }
        0 rfl rfl rfl rfl rfl rfl).1 (Or.inl rfl)
  exact ⟨h.1, h.2.1⟩

/-- Counterexample to C6 as stated: a recreation that changes only the
format (old format BGRA, new format RGBA, identical 800 by 600 extent)
reports `changedSize = false`, and exercise4's recreation branch then
performs no depth-target rebuild — the depth buffer is rebuilt only
when the size changed, not "always". -/
theorem C6_counterexample :
    (recreate_swapchain sampleWindow3
        (some ⟨101, VkFormat.R8G8B8A8_SRGB, ⟨800, 600⟩, [10, 11, 12]⟩)).2 =
      some { changedSize := false, changedFormat := true } ∧
    Action.rebuildDepthBuffer ∉
      ex4_recreation_actions { changedSize := false, changedFormat := true } := by
  decide

/-- Claim C6 as amended: in every recreation-pending iteration with a
succeeding `recreate_swapchain`, the loop first waits for the device to
be idle, performs the recreation call, rebuilds the render pass exactly
when the format changed, always rebuilds the framebuffers, rebuilds the
pipelines (and, in exercise4, the depth targets) exactly when the size
changed — not always — clears the pending flag, and records, submits
and presents nothing that iteration. -/
theorem C6_amended_recreation_iteration (s : Ex3State) (env : IterEnv)
    (r : CreateResult) (hp : s.recreateSwapchain = true)
    (hr : env.recreateResult = some r) :
    (ex3_loop_iteration s env).1.recreateSwapchain = false ∧
    (ex3_loop_iteration s env).2.2 = false ∧
    (ex3_loop_iteration s env).2.1.head? = some Action.deviceWaitIdle ∧
    Action.recreateSwapchainCall ∈ (ex3_loop_iteration s env).2.1 ∧
    Action.rebuildFramebuffers ∈ (ex3_loop_iteration s env).2.1 ∧
    (Action.rebuildRenderPass ∈ (ex3_loop_iteration s env).2.1 ↔
      ((recreate_swapchain s.window (some r)).2.getD {}).changedFormat =
        true) ∧
    (Action.rebuildPipeline ∈ (ex3_loop_iteration s env).2.1 ↔
      ((recreate_swapchain s.window (some r)).2.getD {}).changedSize =
        true) ∧
    (∀ i, Action.recordCommands i ∉ (ex3_loop_iteration s env).2.1 ∧
      Action.submitCommands i ∉ (ex3_loop_iteration s env).2.1 ∧
      Action.presentImage i ∉ (ex3_loop_iteration s env).2.1) ∧
    (∀ ch : SwapChanges,
      (Action.rebuildDepthBuffer ∈ ex4_recreation_actions ch ↔
        ch.changedSize = true) ∧
      (Action.rebuildRenderPass ∈ ex4_recreation_actions ch ↔
        ch.changedFormat = true) ∧
      Action.rebuildFramebuffers ∈ ex4_recreation_actions ch ∧
      (Action.rebuildPipeline ∈ ex4_recreation_actions ch ↔
        ch.changedSize = true) ∧
      (ex4_recreation_actions ch).head? = some Action.deviceWaitIdle) := by
  refine ⟨?_, ?_, ?_, ?_, ?_, ?_, ?_, ?_, ?_⟩
  · simp [ex3_loop_iteration, hp, hr]
  · simp [ex3_loop_iteration, hp, hr]
  · simp [ex3_loop_iteration, hp, hr]
  · simp [ex3_loop_iteration, hp, hr]
  · simp only [ex3_loop_iteration, hp, hr]
    split_ifs <;> simp
  · simp only [ex3_loop_iteration, hp, hr]
    split_ifs with h1 h2 <;> simp_all
  · simp only [ex3_loop_iteration, hp, hr]
    split_ifs with h1 h2 <;> simp_all
  · intro i
    simp only [ex3_loop_iteration, hp, hr]
    refine ⟨?_, ?_, ?_⟩ <;> (split_ifs <;> simp)
  · intro ch
    rcases ch with ⟨cs, cf⟩
    cases cs <;> cases cf <;> decide

/-- Witness for the amended C6: a size-changing recreation on the
sample state clears the flag, and exercise4's branch does rebuild the
depth target when the size changed. -/
theorem C6_amended_recreation_iteration_witness :
    (ex3_loop_iteration
        { ex3_main_init sampleWindow3 with recreateSwapchain := true }
        (all_ok_env (some sampleCreate4))).1.recreateSwapchain = false ∧
    Action.rebuildDepthBuffer ∈
      ex4_recreation_actions { changedSize := true, changedFormat := false } := by
  have h :=
    C6_amended_recreation_iteration
      { ex3_main_init sampleWindow3 with recreateSwapchain := true }
      (all_ok_env (some sampleCreate4)) sampleCreate4 rfl rfl
  exact ⟨h.1, (h.2.2.2.2.2.2.2.2 ⟨true, false⟩).1.mpr rfl⟩

/-- Claim C7: in every reachable state of the frame loop's
synchronization protocol, each frame slot has at most one submission in
flight, and a signaled fence means the slot's previous submission has
completed — so the fence-wait-then-reset-then-submit protocol (the
guard of the record/submit step) never re-records or re-submits a
slot's command buffer while a prior submission on that slot is still in
flight. -/
theorem C7_at_most_one_in_flight (s : SysState) (h : FrameReachable s) :
    (∀ i, (s.slots i).inFlight ≤ 1) ∧
    (∀ i, (s.slots i).fenceSignaled = true → (s.slots i).inFlight = 0) := by
  exact ⟨fun i => (frame_slot_invariant h i).1,
    fun i => (frame_slot_invariant h i).2⟩

/-- Witness for C7: the invariant instantiated at the initial state and
slot 0. -/
theorem C7_at_most_one_in_flight_witness :
    (frame_init.slots 0).inFlight ≤ 1 ∧
    ((frame_init.slots 0).fenceSignaled = true →
      (frame_init.slots 0).inFlight = 0) := by
  have h := C7_at_most_one_in_flight frame_init FrameReachable.init
  exact ⟨h.1 0, h.2 0⟩

end VulkanExercises
